import Mathlib

/-!
# CIVIC-REZO backend: shallow embedding and verification

This file embeds the algorithmic core of the CIVIC-REZO civic-complaint
backend (workflow stage reconciliation, vote toggling, priority fusion,
emotion scoring, score clamping, guest-vote identifiers) as executable Lean
definitions, translated from the JavaScript route handlers and services, and
proves or refutes the specification's claims about them.

Conventions of the embedding:
* JavaScript numbers are modelled as `ℚ` (the scores involved are exact
  decimal fractions; no float rounding is relevant to the claims).
* External collaborators (the database client, the geospatial service, the
  sentiment API, the `md5` digest) are modelled as explicit state / oracle
  parameters; a collaborator call that may throw is an `Except` parameter.
* Fallible handlers return explicit response values instead of throwing.
-/

namespace CivicRezo

/-! ## Workflow stage reconciler (`PUT /complaints/:complaintId/stage/:stageId`) -/

/-- Status of a single workflow stage (`step_i_status` column). -/
inductive StageStatus
  | pending
  | in_progress
  | completed
  | cancelled
  deriving DecidableEq, Repr, Fintype

/-- Overall complaint status (`complaints.status` column). -/
inductive ComplaintStatus
  | pending
  | in_progress
  | resolved
  | cancelled
  deriving DecidableEq, Repr, Fintype

/-- The three `step_i_status` columns of a `complaint_workflow` row. -/
structure WorkflowRow where
  step_1_status : StageStatus
  step_2_status : StageStatus
  step_3_status : StageStatus
  deriving DecidableEq, Repr, Fintype

/-- Stage identifier: the handler accepts only `'1' | '2' | '3'`. -/
inductive StageId
  | s1
  | s2
  | s3
  deriving DecidableEq, Repr, Fintype

/-- The stage-update write: sets `step_<stageId>_status = actualStatus`
(the notes/officer/cost columns of the update object do not affect the
status derivation and are omitted). -/
def updateStage (w : WorkflowRow) (stageId : StageId) (actualStatus : StageStatus) :
    WorkflowRow :=
  match stageId with
  | .s1 => { w with step_1_status := actualStatus }
  | .s2 => { w with step_2_status := actualStatus }
  | .s3 => { w with step_3_status := actualStatus }

/-- `allStagesCompleted` as computed by the handler on the updated row. -/
def allStagesCompleted (w : WorkflowRow) : Bool :=
  w.step_1_status = StageStatus.completed &&
  w.step_2_status = StageStatus.completed &&
  w.step_3_status = StageStatus.completed

/-- `anyStageInProgress` as computed by the handler on the updated row. -/
def anyStageInProgress (w : WorkflowRow) : Bool :=
  w.step_1_status = StageStatus.in_progress ||
  w.step_2_status = StageStatus.in_progress ||
  w.step_3_status = StageStatus.in_progress

/-- `newComplaintStatus` derivation of the handler: starts as `null` and is
set only by the three branches; `none` means the complaint row is not
touched. -/
def newComplaintStatus (updatedWorkflow : WorkflowRow) (actualStatus : StageStatus) :
    Option ComplaintStatus :=
  if allStagesCompleted updatedWorkflow then
    some .resolved
  else if anyStageInProgress updatedWorkflow then
    some .in_progress
  else if actualStatus = StageStatus.cancelled then
    some .cancelled
  else
    none

/-- Overall complaint status after a stage update: the handler updates the
`complaints.status` column only when `newComplaintStatus` is non-null,
otherwise the previous status is kept. -/
def complaintStatusAfterUpdate (prev : ComplaintStatus) (w : WorkflowRow)
    (stageId : StageId) (actualStatus : StageStatus) : ComplaintStatus :=
  (newComplaintStatus (updateStage w stageId actualStatus) actualStatus).getD prev

/-- The derivation table as the specification states it (§4.5): all
completed → resolved; any in-progress → in-progress; latest update
cancelled and no stage completed → cancelled; otherwise pending. -/
def specDerivedStatus (w : WorkflowRow) (latestUpdate : StageStatus) : ComplaintStatus :=
  if allStagesCompleted w then
    .resolved
  else if anyStageInProgress w then
    .in_progress
  else if latestUpdate = StageStatus.cancelled &&
      !(w.step_1_status = StageStatus.completed ||
        w.step_2_status = StageStatus.completed ||
        w.step_3_status = StageStatus.completed) then
    .cancelled
  else
    .pending

/-- C1 (counterexample): with stage 1 already `completed` and stage 2 updated
to `cancelled` (no stage in progress), the handler sets the complaint to
`cancelled`, while the spec table — whose cancelled row requires that no
stage be completed — derives `pending`.  The claimed equality fails. -/
theorem workflow_status_claim_cex :
    complaintStatusAfterUpdate .pending
        ⟨.completed, .pending, .pending⟩ .s2 .cancelled = .cancelled ∧
    specDerivedStatus ⟨.completed, .cancelled, .pending⟩ .cancelled = .pending ∧
    (ComplaintStatus.cancelled ≠ ComplaintStatus.pending) := by
  refine ⟨rfl, rfl, ?_⟩
  decide

/-- C1 (amended): after a stage update, the complaint status is `resolved`
when all three stages are completed; otherwise `in_progress` when any stage
is in progress; otherwise `cancelled` when the update's new status is
`cancelled` (even if some stage is completed); otherwise the stored status
is left unchanged (initially `pending`) rather than being recomputed to
`pending`. -/
theorem workflow_status_amended :
    ∀ (prev : ComplaintStatus) (w : WorkflowRow) (i : StageId) (st : StageStatus),
      complaintStatusAfterUpdate prev w i st =
        (let u := updateStage w i st
         if allStagesCompleted u then .resolved
         else if anyStageInProgress u then .in_progress
         else if st = StageStatus.cancelled then .cancelled
         else prev) := by
  decide

/-! ## Vote ledger toggle (`POST /complaints/vote`, authenticated) -/

/-- Vote type stored in a `complaint_votes` row. -/
inductive VoteType
  | upvote
  | downvote
  deriving DecidableEq, Repr

/-- The `action` field the handler attaches to its result object. -/
inductive VoteAction
  | voted
  | unvoted
  deriving DecidableEq, Repr

/-- Database state relevant to one `(complaint, voter)` pair: the voter's
`complaint_votes` row (if any) and the complaint's denormalized
`vote_count`. -/
structure VoteDb where
  existingVote : Option VoteType
  vote_count : ℕ
  deriving DecidableEq, Repr

/-- Response payload of the toggle handler. -/
structure ToggleResponse where
  action : VoteAction
  voteCount : ℕ
  userVoted : Bool
  deriving DecidableEq, Repr

/-- The toggle handler happy path: no existing row → insert an upvote row;
an upvote row → delete it; a downvote row → update it to upvote.  The
handler never writes `complaints.vote_count`; the reported `voteCount` is
re-read from the complaint row after the mutation. -/
def toggleVote (db : VoteDb) : ToggleResponse × VoteDb :=
  match db.existingVote with
  | none =>
      let db' : VoteDb := { db with existingVote := some .upvote }
      ({ action := .voted, voteCount := db'.vote_count, userVoted := true }, db')
  | some .upvote =>
      let db' : VoteDb := { db with existingVote := none }
      ({ action := .unvoted, voteCount := db'.vote_count, userVoted := false }, db')
  | some .downvote =>
      let db' : VoteDb := { db with existingVote := some .upvote }
      ({ action := .voted, voteCount := db'.vote_count, userVoted := true }, db')

/-- C2: starting from a voter with no recorded vote, toggling twice in
sequence nets zero: the first call inserts an upvote row, the second call
deletes it, and both the database row and the reported `voteCount` are back
at their original values. -/
theorem vote_toggle_twice_nets_zero :
    ∀ count : ℕ,
      (toggleVote ⟨none, count⟩).2.existingVote = some .upvote ∧
      (toggleVote ⟨none, count⟩).1.action = .voted ∧
      (toggleVote ((toggleVote ⟨none, count⟩).2)).1.action = .unvoted ∧
      (toggleVote ((toggleVote ⟨none, count⟩).2)).2 = ⟨none, count⟩ ∧
      (toggleVote ((toggleVote ⟨none, count⟩).2)).1.voteCount = count := by
  intro count
  exact ⟨rfl, rfl, rfl, rfl, rfl⟩

/-! ## Priority fusion engine (`calculateComprehensivePriority`) -/

/-- Discrete priority level. -/
inductive PriorityLevel
  | LOW
  | MEDIUM
  | HIGH
  | CRITICAL
  deriving DecidableEq, Repr

/-- The `data` sub-object of an image-validation result
(`imageValidation.data.priorityScore`). -/
structure ImageValidationData where
  priorityScore : Option ℚ
  deriving DecidableEq, Repr

/-- Image-validation result as consumed by the submit route: the fusion
engine reads `data.priorityScore`; the submit handler separately reads
`confidence`, `modelConfidence` and `allowUpload`. -/
structure ImageValidation where
  confidence : Option ℚ
  modelConfidence : Option ℚ
  allowUpload : Bool
  data : Option ImageValidationData
  deriving DecidableEq, Repr

/-- Coordinates of a complaint submission (`locationData`). -/
structure LocationData where
  latitude : ℚ
  longitude : ℚ
  deriving DecidableEq, Repr

/-- Result of the external `calculateLocationPriority` collaborator used on
the two-factor fallback path. -/
structure LocationPriority where
  priorityScore : Option ℚ
  reasoning : Option String
  totalFacilities : Option ℕ
  deriving DecidableEq, Repr

/-- Breakdown of the richer combined method of `LocationPriorityService`. -/
structure PriorityBreakdown where
  infrastructureScore : ℚ
  imageValidationScore : ℚ
  ageScore : ℚ
  voteScore : ℚ
  statusMultiplier : ℚ
  deriving DecidableEq, Repr

/-- Result of the external `LocationPriorityService.calculateComprehensivePriority`
collaborator (the richer combined method). -/
structure NewMethodResult where
  priorityScore : ℚ
  priorityLevel : PriorityLevel
  breakdown : PriorityBreakdown
  reasoning : String
  totalFacilities : Option ℕ
  deriving DecidableEq, Repr

/-- The `PriorityAnalysis` value returned to the submit route.  The
wall-clock `processingTime` field is outside the embedding; `breakdown` is
`none` on the catch path, where the code returns no breakdown key. -/
structure PriorityAnalysis where
  totalScore : ℚ
  priorityLevel : PriorityLevel
  locationScore : ℚ
  imageScore : ℚ
  reasoning : String
  facilitiesCount : ℕ
  breakdown : Option PriorityBreakdown
  deriving DecidableEq, Repr

/-- `imageValidation?.data?.priorityScore || 0`. -/
def imageScoreOf (iv : Option ImageValidation) : ℚ :=
  ((iv.bind (·.data)).bind (·.priorityScore)).getD 0

/-- Level thresholds of the two-factor path:
`≥0.8 → CRITICAL, ≥0.6 → HIGH, ≥0.4 → MEDIUM, else LOW`. -/
def levelFromScore (totalScore : ℚ) : PriorityLevel :=
  if totalScore ≥ 0.8 then .CRITICAL
  else if totalScore ≥ 0.6 then .HIGH
  else if totalScore ≥ 0.4 then .MEDIUM
  else .LOW

/-- Name of a priority level, as interpolated into reasoning strings. -/
def levelName : PriorityLevel → String
  | .LOW => "LOW"
  | .MEDIUM => "MEDIUM"
  | .HIGH => "HIGH"
  | .CRITICAL => "CRITICAL"

/-- Rendering of `(q).toFixed(1)` for the non-negative scores that reach it
(round to one fractional digit, half up). -/
def ratToFixed1 (q : ℚ) : String :=
  let n : ℤ := round (q * 10)
  toString (n / 10) ++ "." ++ toString (n.natAbs % 10)

/-- `getCategoryImportance`: static per-category importance phrase. -/
def getCategoryImportance (category : String) : String :=
  match category with
  | "road_damage" => "high-priority"
  | "pothole" => "high-priority"
  | "water_issue" => "critical"
  | "sewage_overflow" => "critical"
  | "garbage" => "medium-priority"
  | "streetlight" => "medium-priority"
  | "broken_streetlight" => "medium-priority"
  | "electricity" => "high-priority"
  | "public_property_damage" => "high-priority"
  | "tree_issue" => "medium-priority"
  | "flooding" => "critical"
  | "traffic_signal" => "high-priority"
  | "stray_animals" => "standard"
  | "noise_pollution" => "standard"
  | "air_pollution" => "high-priority"
  | "other" => "standard"
  | _ => "standard"

/-- `generatePriorityReasoning`: builds the explanation string of the
two-factor path. -/
def generatePriorityReasoning (locationScore imageScore : ℚ)
    (priorityLevel : PriorityLevel) (category : String)
    (locationPriority : Option LocationPriority) (iv : Option ImageValidation) :
    String :=
  let r0 := levelName priorityLevel ++ " priority assigned. "
  let r1 :=
    if locationScore > 0 then
      r0 ++ "Location analysis: " ++ ratToFixed1 (locationScore * 100) ++ "% " ++
        (match locationPriority.bind (·.reasoning) with
         | some s => "(" ++ (s.take 100) ++ "...) "
         | none => "")
    else r0
  let r2 :=
    if imageScore > 0 then
      r1 ++ "Image validation: " ++ ratToFixed1 (imageScore * 100) ++ "% " ++
        (if (iv.map (·.allowUpload)).getD false then "(Valid civic issue detected) "
         else "")
    else r1
  r2 ++ "Category '" ++ category ++ "' is considered " ++
    getCategoryImportance category ++ ". "

/-- `getFallbackPriority`: static category → default score lookup table used
by the catch branch. -/
def getFallbackPriority (category : String) : ℚ :=
  match category with
  | "road_damage" => 0.7
  | "pothole" => 0.65
  | "water_issue" => 0.8
  | "sewage_overflow" => 0.85
  | "garbage" => 0.6
  | "streetlight" => 0.55
  | "broken_streetlight" => 0.6
  | "electricity" => 0.75
  | "public_property_damage" => 0.65
  | "tree_issue" => 0.5
  | "flooding" => 0.9
  | "traffic_signal" => 0.8
  | "stray_animals" => 0.4
  | "noise_pollution" => 0.4
  | "air_pollution" => 0.7
  | "other" => 0.5
  | _ => 0.5

/-- The catch branch of `calculateComprehensivePriority`: category-based
fallback, tagged as degraded in the reasoning. -/
def priorityCatchFallback (iv : Option ImageValidation) (category : String) :
    PriorityAnalysis :=
  let fallbackScore := getFallbackPriority category
  { totalScore := min fallbackScore 0.999
    priorityLevel := if fallbackScore ≥ 0.6 then .HIGH else .MEDIUM
    locationScore := 0
    imageScore := imageScoreOf iv
    reasoning := "Priority assigned based on complaint type (" ++ category ++
      "). Location analysis unavailable."
    facilitiesCount := 0
    breakdown := none }

/-- The two-factor blend computed once a location score (possibly 0) is in
hand: `totalScore = 0.6·locationScore + 0.4·imageScore`. -/
def twoFactorBlend (iv : Option ImageValidation) (category : String)
    (locationScore : ℚ) (locationPriority : Option LocationPriority) :
    PriorityAnalysis :=
  let imageScore := imageScoreOf iv
  let totalScore := locationScore * 0.6 + imageScore * 0.4
  let priorityLevel := levelFromScore totalScore
  { totalScore := totalScore
    priorityLevel := priorityLevel
    locationScore := locationScore
    imageScore := imageScore
    reasoning := generatePriorityReasoning locationScore imageScore priorityLevel
      category locationPriority iv
    facilitiesCount := ((locationPriority.bind (·.totalFacilities)).getD 0)
    breakdown := some
      { infrastructureScore := locationScore
        imageValidationScore := imageScore
        ageScore := 1
        voteScore := 0
        statusMultiplier := 1 } }

/-- `calculateComprehensivePriority`.  The two external collaborator calls
are oracle parameters: `newMethodOutcome` for the richer combined method
(tried only when both coordinates are truthy), and `locPriorityOutcome` for
`calculateLocationPriority` on the fallback path (called whenever
`locationData` is present; an `Except.error` there lands in the outer catch
branch).  As in the source, every outcome yields a `PriorityAnalysis` — the
embedding is a total function, the function never throws. -/
def calculateComprehensivePriority (iv : Option ImageValidation)
    (locationData : Option LocationData) (category : String)
    (newMethodOutcome : Except String NewMethodResult)
    (locPriorityOutcome : Except String LocationPriority) : PriorityAnalysis :=
  let fallback : PriorityAnalysis :=
    match locationData with
    | some _ =>
        match locPriorityOutcome with
        | .error _ => priorityCatchFallback iv category
        | .ok lp => twoFactorBlend iv category (lp.priorityScore.getD 0) (some lp)
    | none => twoFactorBlend iv category 0 none
  match locationData with
  | some ld =>
      -- JS truthiness: a latitude/longitude of 0 skips the richer method
      if ld.latitude ≠ 0 ∧ ld.longitude ≠ 0 then
        match newMethodOutcome with
        | .ok r =>
            { totalScore := r.priorityScore
              priorityLevel := r.priorityLevel
              locationScore := r.breakdown.infrastructureScore
              imageScore := r.breakdown.imageValidationScore
              reasoning := r.reasoning
              facilitiesCount := r.totalFacilities.getD 0
              breakdown := some r.breakdown }
        | .error _ => fallback
      else fallback
  | none => fallback

/-- The static fallback table only contains values between 0.4 and 0.9. -/
theorem getFallbackPriority_bounds (category : String) :
    (0.4 : ℚ) ≤ getFallbackPriority category ∧ getFallbackPriority category ≤ 0.9 := by
  unfold getFallbackPriority
  split <;> norm_num

/-- Whenever the fallback-path location call throws, the engine lands in the
catch branch, whatever the richer-method outcome and coordinates were. -/
theorem calculateComprehensivePriority_catch (iv : Option ImageValidation)
    (ld : LocationData) (category : String) (em e : String) :
    calculateComprehensivePriority iv (some ld) category (.error em) (.error e) =
      priorityCatchFallback iv category := by
  unfold calculateComprehensivePriority
  by_cases h : ld.latitude ≠ 0 ∧ ld.longitude ≠ 0 <;> simp [h]

/-- C3: the priority fusion engine is a total function (the embedding
returns a `PriorityAnalysis` for every oracle outcome, matching the
catch-all in the source), and on any exception in the location scoring of
steps 1–3 it returns the category-table fallback: the total score is the
static per-category value, lies in `[0.4, 0.9]` (hence strictly below 1),
and the reasoning is tagged with `Location analysis unavailable.`. -/
theorem priority_fusion_catch_fallback (iv : Option ImageValidation)
    (ld : LocationData) (category : String) (em e : String) :
    (calculateComprehensivePriority iv (some ld) category
        (.error em) (.error e)).totalScore = getFallbackPriority category ∧
    (0.4 : ℚ) ≤ (calculateComprehensivePriority iv (some ld) category
        (.error em) (.error e)).totalScore ∧
    (calculateComprehensivePriority iv (some ld) category
        (.error em) (.error e)).totalScore ≤ 0.9 ∧
    (calculateComprehensivePriority iv (some ld) category
        (.error em) (.error e)).totalScore < 1 ∧
    (calculateComprehensivePriority iv (some ld) category
        (.error em) (.error e)).reasoning =
      "Priority assigned based on complaint type (" ++ category ++
        "). Location analysis unavailable." := by
  rw [calculateComprehensivePriority_catch]
  obtain ⟨h1, h2⟩ := getFallbackPriority_bounds category
  have hmin : min (getFallbackPriority category) (0.999 : ℚ) =
      getFallbackPriority category :=
    min_eq_left (by linarith)
  refine ⟨hmin, ?_, ?_, ?_, rfl⟩ <;> rw [priorityCatchFallback] <;> simp [hmin]
  · exact h1
  · exact h2
  · linarith

/-- C4 (counterexample): on the degraded fallback path with category
`flooding` the total score is 0.9, which the claimed thresholds map to
`CRITICAL`, yet the engine returns `HIGH` — the threshold mapping does not
hold on every code path. -/
theorem priority_level_threshold_cex :
    (calculateComprehensivePriority none (some ⟨1, 1⟩) "flooding"
        (.error "svc down") (.error "svc down")).totalScore = 0.9 ∧
    (calculateComprehensivePriority none (some ⟨1, 1⟩) "flooding"
        (.error "svc down") (.error "svc down")).priorityLevel = .HIGH ∧
    levelFromScore 0.9 = .CRITICAL ∧
    (PriorityLevel.HIGH ≠ PriorityLevel.CRITICAL) := by
  rw [calculateComprehensivePriority_catch]
  refine ⟨?_, ?_, ?_, by decide⟩ <;>
    simp [priorityCatchFallback, getFallbackPriority, levelFromScore] <;> norm_num

/-- C4 (amended): the fixed thresholds `≥0.8→CRITICAL, ≥0.6→HIGH,
≥0.4→MEDIUM, else LOW` determine the level on the two-factor blend path
(no coordinates, or richer method failed with the location call
succeeding); on the degraded fallback path the level is instead `HIGH` when
the category fallback score is at least 0.6 and `MEDIUM` otherwise, so
fallback scores of 0.8 and above get `HIGH`, not `CRITICAL`. -/
theorem priority_level_mapping_amended :
    (∀ (iv : Option ImageValidation) (category : String)
        (nmOut : Except String NewMethodResult)
        (lpOut : Except String LocationPriority),
      (calculateComprehensivePriority iv none category nmOut lpOut).priorityLevel =
        levelFromScore
          (calculateComprehensivePriority iv none category nmOut lpOut).totalScore) ∧
    (∀ (iv : Option ImageValidation) (ld : LocationData) (category : String)
        (ne' : String) (lp : LocationPriority),
      (calculateComprehensivePriority iv (some ld) category
          (.error ne') (.ok lp)).priorityLevel =
        levelFromScore
          (calculateComprehensivePriority iv (some ld) category
            (.error ne') (.ok lp)).totalScore) ∧
    (∀ (iv : Option ImageValidation) (ld : LocationData) (category : String)
        (em e : String),
      (calculateComprehensivePriority iv (some ld) category
          (.error em) (.error e)).priorityLevel =
        if getFallbackPriority category ≥ 0.6 then .HIGH else .MEDIUM) := by
  refine ⟨?_, ?_, ?_⟩
  · intro iv category nmOut lpOut
    rfl
  · intro iv ld category ne' lp
    unfold calculateComprehensivePriority
    by_cases h : ld.latitude ≠ 0 ∧ ld.longitude ≠ 0 <;> simp [h, twoFactorBlend]
  · intro iv ld category em e
    rw [calculateComprehensivePriority_catch]
    rfl

/-- C5 (counterexample): with an image-validation result that carries a
`confidence` of 0.7 but no `data.priorityScore`, the primary two-factor
path produces a total score of 0 — not the `0.6·0 + 0.4·0.7 = 0.28` the
claim's "image score = image-validation confidence" formula would give.
The engine reads `imageValidation.data.priorityScore`, not `confidence`. -/
theorem priority_image_confidence_cex :
    (calculateComprehensivePriority
        (some { confidence := some 0.7, modelConfidence := none,
                allowUpload := false, data := none })
        none "general" (.error "x") (.error "y")).totalScore = 0 ∧
    ({ confidence := some 0.7, modelConfidence := none,
       allowUpload := false, data := none : ImageValidation }).confidence =
      some 0.7 ∧
    (0 : ℚ) * 0.6 + 0.7 * 0.4 = 0.28 ∧
    ((0 : ℚ) ≠ 0.28) := by
  refine ⟨?_, rfl, by norm_num, by norm_num⟩
  simp [calculateComprehensivePriority, twoFactorBlend, imageScoreOf]

/-- C5 (amended): on the primary two-factor path the total score equals
`0.6·locationScore + 0.4·imageScore`, where the image score is the image
validation's `data.priorityScore` when present and 0 otherwise (not its
`confidence`), and the location score is 0 when no coordinates are given
(and the fallback evaluator's score when they are). -/
theorem priority_two_factor_amended :
    (∀ (iv : Option ImageValidation) (category : String)
        (nmOut : Except String NewMethodResult)
        (lpOut : Except String LocationPriority),
      (calculateComprehensivePriority iv none category nmOut lpOut).locationScore
          = 0 ∧
      (calculateComprehensivePriority iv none category nmOut lpOut).imageScore =
        imageScoreOf iv ∧
      (calculateComprehensivePriority iv none category nmOut lpOut).totalScore =
        (calculateComprehensivePriority iv none category nmOut lpOut).locationScore
            * 0.6 +
          (calculateComprehensivePriority iv none category nmOut lpOut).imageScore
            * 0.4) ∧
    (∀ (iv : Option ImageValidation) (ld : LocationData) (category : String)
        (ne' : String) (lp : LocationPriority),
      (calculateComprehensivePriority iv (some ld) category
          (.error ne') (.ok lp)).locationScore = lp.priorityScore.getD 0 ∧
      (calculateComprehensivePriority iv (some ld) category
          (.error ne') (.ok lp)).imageScore = imageScoreOf iv ∧
      (calculateComprehensivePriority iv (some ld) category
          (.error ne') (.ok lp)).totalScore =
        (calculateComprehensivePriority iv (some ld) category
            (.error ne') (.ok lp)).locationScore * 0.6 +
          (calculateComprehensivePriority iv (some ld) category
            (.error ne') (.ok lp)).imageScore * 0.4) := by
  constructor
  · intro iv category nmOut lpOut
    exact ⟨rfl, rfl, rfl⟩
  · intro iv ld category ne' lp
    unfold calculateComprehensivePriority
    by_cases h : ld.latitude ≠ 0 ∧ ld.longitude ≠ 0 <;> simp [h, twoFactorBlend]

/-! ## Emotion/urgency analyzer (`routes/emotion.js`)

JS `textLower.includes(pattern)` is modelled as an executable substring
check on the character lists; `toLowerCase()` is `String.toLower` (the
non-ASCII keywords involved are caseless, so ASCII lowercasing matches the
JS behaviour on them). -/

/-- Does the second list start with the first one? -/
def charsStartWith : List Char → List Char → Bool
  | [], _ => true
  | _ :: _, [] => false
  | a :: as, b :: bs => a = b && charsStartWith as bs

/-- Does the list contain the pattern as a contiguous run? -/
def charsContain (pat : List Char) : List Char → Bool
  | [] => pat.isEmpty
  | c :: rest => charsStartWith pat (c :: rest) || charsContain pat rest

/-- JS `s.includes(pat)`. -/
def strIncludes (s pat : String) : Bool :=
  charsContain pat.toList s.toList

/-- JS `s.toLowerCase()`, as a character map over the string's characters
(fully executable; the analyzer's keywords are ASCII-lowercase or caseless,
so this agrees with the JS behaviour on them). -/
def strToLower (s : String) : String :=
  ⟨s.data.map Char.toLower⟩

/-- JS whitespace test for `trim` on the characters that occur here. -/
def charIsWs (c : Char) : Bool :=
  c = ' ' || c = '\t' || c = '\n' || c = '\r'

/-- JS `s.trim()`: strip leading and trailing whitespace. -/
def strTrim (s : String) : String :=
  ⟨((s.data.dropWhile charIsWs).reverse.dropWhile charIsWs).reverse⟩

/-- Fold of `forEach`-style accumulation loops: add `inc` for every list
entry whose lowercased form occurs in `textLower`. -/
def addMatches (textLower : String) (inc init : ℚ) (ws : List String) : ℚ :=
  ws.foldl (fun s w => if strIncludes textLower (strToLower w) then s + inc else s) init

/-- Same accumulation for the loops that do not lowercase the pattern
(`detectSafetyConcerns`). -/
def addMatchesRaw (textLower : String) (inc init : ℚ) (ws : List String) : ℚ :=
  ws.foldl (fun s w => if strIncludes textLower w then s + inc else s) init

/-- Number of entries whose lowercased form occurs in `textLower`
(`detectIssueCategory` match counting). -/
def countMatches (textLower : String) (ws : List String) : ℕ :=
  ws.foldl (fun n w => if strIncludes textLower (strToLower w) then n + 1 else n) 0

/-- Per-axis emotion vector (`{anger, urgency, frustration, concern}`). -/
structure Emotions where
  anger : ℚ
  urgency : ℚ
  frustration : ℚ
  concern : ℚ
  deriving DecidableEq, Repr

/-- Per-language keyword table of the analyzer. -/
structure KeywordTable where
  anger : List String
  urgency : List String
  frustration : List String
  concern : List String
  deriving DecidableEq, Repr

/-- `emotionKeywords.hi`. -/
def hiKeywords : KeywordTable :=
  { anger := ["गुस्सा", "क्रोध", "नाराज़", "परेशान", "चिढ़", "खफा"]
    urgency := ["तुरंत", "जल्दी", "आपातकाल", "खतरनाक", "अभी", "दुर्घटना",
      "दुर्घटनाएं", "मौत", "मौतें", "मृत्यु"]
    frustration := ["परेशान", "तंग", "दुखी", "चिंतित", "हैरान", "निराश"]
    concern := ["चिंता", "डर", "फिक्र", "घबराहट", "बेचैनी", "चिंतित"] }

/-- `emotionKeywords.en`. -/
def enKeywords : KeywordTable :=
  { anger := ["angry", "furious", "mad", "irritated", "annoyed", "frustrated"]
    urgency := ["urgent", "emergency", "immediate", "dangerous", "critical",
      "accident", "accidents", "death", "deaths", "fatal"]
    frustration := ["frustrated", "fed up", "tired", "disappointed"]
    concern := ["worried", "concerned", "scared", "afraid", "anxious"] }

/-- `emotionKeywords.ta`. -/
def taKeywords : KeywordTable :=
  { anger := ["கோபம்", "எரிச்சல்", "சீற்றம்", "வெறுப்பு", "கோபமாக", "எரிச்சலாக",
      "கோபப்படுகிறேன்", "வெறுக்கிறேன்"]
    urgency := ["அவசரம்", "உடனடி", "ஆபத்து", "முக்கியம்", "அவசரமாக", "உடனடியாக",
      "ஆபத்தான", "அவசர", "மரணம்", "விபத்து", "உயிருக்கு ஆபத்து", "பெரிய",
      "மிகப்பெரிய", "பிரச்சனை"]
    frustration := ["வருத்தம்", "ஏமாற்றம்", "வருத்தமாக", "ஏமாற்றமாக", "கஷ்டம்",
      "துன்பம்", "வேதனை", "சோகம்"]
    concern := ["கவலை", "பயம்", "கவலையாக", "பயமாக", "வேவலை", "சிந்தனை", "பரிவு",
      "கவனம்", "உளைச்சல்", "நெருக்கடி", "தேவை", "சிக்கல்"] }

/-- `this.emotionKeywords[language] || this.emotionKeywords.en`. -/
def emotionKeywordsFor (language : String) : KeywordTable :=
  match language with
  | "hi" => hiKeywords
  | "en" => enKeywords
  | "ta" => taKeywords
  | _ => enKeywords

/-- `detectLanguage`: Unicode-block script detection with English default. -/
def detectLanguage (text : String) : String :=
  if text.toList.any (fun c => 0x900 ≤ c.toNat && c.toNat ≤ 0x97F) then "hi"
  else if text.toList.any (fun c => 0xB80 ≤ c.toNat && c.toNat ≤ 0xBFF) then "ta"
  else if text.toList.any (fun c => 0xC00 ≤ c.toNat && c.toNat ≤ 0xC7F) then "te"
  else "en"

/-- The `urgencyWords` list of `detectUrgencyFromText`. -/
def urgencyWords : List String :=
  ["death", "deaths", "died", "accident", "accidents", "emergency", "urgent",
   "critical", "dangerous",
   "disease", "illness", "sick", "health", "contamination", "pollution",
   "toxic", "suffocating",
   "stench", "smell", "dirty", "filthy", "overflow", "leakage", "burst",
   "मौत", "मौतें", "मृत्यु", "दुर्घटना", "दुर्घटनाएं", "आपातकाल", "खतरनाक", "गंभीर",
   "बीमारी", "रोग", "स्वास्थ्य", "प्रदूषण", "गंदगी", "बदबू", "दुर्गंध", "सड़न",
   "घुटन", "घुट रहे", "सीवेज", "नाली", "गंदा पानी", "रिसाव", "फूटना", "बहना",
   "मुश्किल", "कठिनाई", "परेशानी", "दिक्कत", "समस्या",
   "सुरक्षा", "सुरक्षित", "असुरक्षित", "खतरा", "डर", "चिंता",
   "लड़कियों", "महिलाओं", "बच्चों", "रात", "अंधेरा", "सुनिश्चित", "नहीं",
   "மரணம்", "விபத்து", "ஆபத்து", "அவசரம்", "பாதுகாப்பு", "பயம்", "கவலை", "நோய்",
   "அசுத்தம்"]

/-- The `criticalHealthPhrases` list of `detectUrgencyFromText`. -/
def criticalHealthPhrases : List String :=
  ["घुट रहे हैं", "बदबू में", "गंदगी में", "सीवेज का", "गंदा पानी", "बीमार हो रहे",
   "स्वास्थ्य खराब",
   "सांस लेने में दिक्कत", "पेट की बीमारी", "डेंगू का खतरा", "मच्छर पैदा हो रहे",
   "suffocating in", "health emergency", "disease outbreak", "contaminated water",
   "breathing difficulty", "stomach illness", "mosquito breeding", "health hazard"]

/-- The `safetyPhrases` list of `detectUrgencyFromText`. -/
def safetyPhrases : List String :=
  ["सुरक्षा सुनिश्चित नहीं", "लड़कियों की सुरक्षा", "रात के समय", "चलना मुश्किल",
   "women safety", "girls safety", "night time", "walking difficult"]

/-- `detectUrgencyFromText`: 0.15 per urgency word, 0.3 per critical health
phrase, 0.25 per safety phrase, capped at 1. -/
def detectUrgencyFromText (text : String) : ℚ :=
  let textLower := strToLower text
  let s := addMatches textLower 0.15 0 urgencyWords
  let s := addMatches textLower 0.3 s criticalHealthPhrases
  let s := addMatches textLower 0.25 s safetyPhrases
  min s 1

/-- The `criticalSafetyPhrases` list of `detectSafetyConcerns`. -/
def criticalSafetyPhrases : List String :=
  ["सुरक्षा सुनिश्चित नहीं", "लड़कियों की सुरक्षा", "महिलाओं की सुरक्षा",
   "रात के समय", "अंधेरे में", "चलना मुश्किल", "डर लगता है",
   "women safety", "girls safety", "ladies safety", "night time safety",
   "walking difficult", "afraid to walk", "security concern", "safety issue"]

/-- The `vulnerableGroups` list of `detectSafetyConcerns`. -/
def vulnerableGroups : List String :=
  ["लड़कियों", "लड़कियां", "महिलाओं", "बच्चों", "बुजुर्गों",
   "girls", "women", "ladies", "children", "elderly"]

/-- The `timeVulnerability` list of `detectSafetyConcerns`. -/
def timeVulnerability : List String :=
  ["रात", "अंधेरा", "night", "dark", "evening"]

/-- `detectSafetyConcerns`: 0.08 per critical safety phrase, 0.05 per
vulnerable-group mention, 0.03 per time-vulnerability word, capped at
0.15. -/
def detectSafetyConcerns (text : String) : ℚ :=
  let textLower := strToLower text
  let s := addMatchesRaw textLower 0.08 0 criticalSafetyPhrases
  let s := addMatchesRaw textLower 0.05 s vulnerableGroups
  let s := addMatchesRaw textLower 0.03 s timeVulnerability
  min s 0.15

/-- `calculateTextScore`: `baseScore` per matched indicator, capped at 1. -/
def calculateTextScore (text : String) (indicators : List String)
    (baseScore : ℚ) : ℚ :=
  min (addMatches (strToLower text) baseScore 0 indicators) 1

/-- The `concernIndicators` list of `detectConcernFromText`. -/
def concernIndicators : List String :=
  ["worried", "concerned", "afraid", "scared", "nervous", "anxious", "trouble",
   "problem",
   "चिंतित", "परेशान", "डरा", "घबराया", "समस्या", "मुसीबत",
   "கவலை", "பயம", "பிரச்சினை"]

/-- `detectConcernFromText`. -/
def detectConcernFromText (text : String) : ℚ :=
  calculateTextScore text concernIndicators 0.3

/-- The `angerIndicators` list of `detectAngerFromText`. -/
def angerIndicators : List String :=
  ["angry", "furious", "outraged", "mad", "frustrated", "fed up", "enough",
   "गुस्सा", "क्रोध", "नाराज़", "बहुत परेशान",
   "கோபம்", "எரிச்சல்"]

/-- `detectAngerFromText`. -/
def detectAngerFromText (text : String) : ℚ :=
  calculateTextScore text angerIndicators 0.4

/-- `analyzeWithKeywords`: 0.25 per matched keyword per axis, capped at 1
per axis; for Tamil with content longer than 10 characters and no match at
all, a baseline of concern 0.3 / urgency 0.2 is set. -/
def analyzeWithKeywords (text language : String) : Emotions :=
  let kw := emotionKeywordsFor language
  let textLower := strToLower text
  let e : Emotions :=
    { anger := min (addMatches textLower 0.25 0 kw.anger) 1
      urgency := min (addMatches textLower 0.25 0 kw.urgency) 1
      frustration := min (addMatches textLower 0.25 0 kw.frustration) 1
      concern := min (addMatches textLower 0.25 0 kw.concern) 1 }
  if language = "ta" ∧ (strTrim text).length > 10 ∧
      e.anger = 0 ∧ e.urgency = 0 ∧ e.frustration = 0 ∧ e.concern = 0 then
    { e with concern := 0.3, urgency := 0.2 }
  else
    e

/-- `analyzeWithEnhancedKeywords`: keyword scores max-merged with the
dedicated urgency/concern/anger detectors. -/
def analyzeWithEnhancedKeywords (text language : String) : Emotions :=
  let e := analyzeWithKeywords text language
  let e := { e with urgency := max e.urgency (detectUrgencyFromText text) }
  let e := { e with concern := max e.concern (detectConcernFromText text) }
  { e with anger := max e.anger (detectAngerFromText text) }

/-- Sentiment returned by the external classification API, after the
response-shape juggling of `convertSentimentToEmotions` has extracted a
`{label, score}` pair (`none` when the format is unknown). -/
structure Sentiment where
  label : String
  score : ℚ
  deriving DecidableEq, Repr

/-- `convertSentimentToEmotions`: maps the API sentiment onto the four
axes.  Note: in the positive branch the source compares the result of an
un-awaited async `detectLanguage` call (a promise) with `'ta'`/`'hi'`, so
that adjustment block never executes and is dead code here. -/
def convertSentimentToEmotions (sentiment : Option Sentiment) (text : String) :
    Emotions :=
  match sentiment with
  | some s =>
      if s.label ≠ "" then
        let label := strToLower s.label
        if strIncludes label "negative" || label = "1 star" || label = "2 stars" then
          { anger := if s.score > 0.7 then s.score * 0.5 else 0
            urgency := min (s.score * 0.6 + detectUrgencyFromText text) 1
            frustration := s.score * 0.7
            concern := s.score * 0.9 }
        else if strIncludes label "positive" || label = "4 stars" || label = "5 stars" then
          { anger := 0, urgency := detectUrgencyFromText text,
            frustration := 0, concern := 0 }
        else if strIncludes label "neutral" || label = "3 stars" then
          let urgencyBoost := detectUrgencyFromText text
          { anger := 0, urgency := urgencyBoost,
            frustration := 0, concern := urgencyBoost * 0.5 }
        else
          { anger := 0, urgency := 0, frustration := 0, concern := 0 }
      else
        let urgencyBoost := detectUrgencyFromText text
        { anger := 0, urgency := urgencyBoost,
          frustration := 0, concern := urgencyBoost * 0.8 }
  | none =>
      let urgencyBoost := detectUrgencyFromText text
      { anger := 0, urgency := urgencyBoost,
        frustration := 0, concern := urgencyBoost * 0.8 }

/-- `calculateEmotionScore`: weighted fusion over the axes (reduce over the
object keys in insertion order `anger, urgency, frustration, concern`),
with the concern amplifier. -/
def calculateEmotionScore (e : Emotions) : ℚ :=
  let baseScore :=
    0 + e.anger * 0.3 + e.urgency * 0.4 + e.frustration * 0.1 + e.concern * 0.2
  if e.concern > 0.3 then min (baseScore * 1.2) 1 else baseScore

/-- `categoryMultipliers` lookup of `applyCategoryAdjustments`
(`|| 1.0` default). -/
def categoryMultiplier (category : String) : ℚ :=
  match category with
  | "sewage_overflow" => 1.8
  | "water_contamination" => 1.8
  | "gas_leak" => 1.9
  | "fire_hazard" => 1.8
  | "electrical_danger" => 1.7
  | "health_emergency" => 1.8
  | "disease_outbreak" => 1.9
  | "women_safety" => 1.7
  | "night_safety" => 1.6
  | "broken_streetlight" => 1.6
  | "road_safety" => 1.7
  | "public_safety" => 1.8
  | "traffic_signal" => 1.5
  | "child_safety" => 1.7
  | "pothole" => 1.4
  | "road_damage" => 1.4
  | "water_logging" => 1.5
  | "drain_blockage" => 1.4
  | "bridge_damage" => 1.5
  | "building_collapse" => 1.8
  | "garbage_collection" => 1.3
  | "water_supply" => 1.5
  | "power_outage" => 1.3
  | "sanitation" => 1.4
  | "public_transport" => 1.3
  | "air_pollution" => 1.4
  | "noise_pollution" => 1.2
  | "water_pollution" => 1.5
  | "illegal_dumping" => 1.3
  | "tree_cutting" => 1.2
  | "park_maintenance" => 1.1
  | "street_cleaning" => 1.2
  | "public_toilet" => 1.3
  | "sports_facility" => 1.1
  | "document_issue" => 1
  | "tax_related" => 1
  | "information_request" => 1
  | "general" => 1
  | _ => 1

/-- `applyCategoryAdjustments`: scale by the category multiplier, capped at
1. -/
def applyCategoryAdjustments (score : ℚ) (category : String) : ℚ :=
  min (score * categoryMultiplier category) 1

/-- `categoryPatterns` of `detectIssueCategory`, in object insertion
order. -/
def categoryPatterns : List (String × List String) :=
  [("sewage_overflow",
    ["सीवेज", "नाली", "गंदा पानी", "रिसाव", "घुट रहे", "बहना", "फूटना", "sewage",
     "drain overflow", "dirty water", "waste water", "burst pipe", "கழிவுநீர்",
     "வடிகால்"]),
   ("water_contamination",
    ["पानी की गुणवत्ता", "दूषित पानी", "पीने का पानी", "गंदा पानी", "water quality",
     "contaminated water", "drinking water", "dirty water", "தண்ணீர் தரம்",
     "அசுத்த நீர்"]),
   ("health_emergency",
    ["बीमारी", "रोग", "स्वास्थ्य", "बदबू", "दुर्गंध", "सड़न", "घुटन", "disease",
     "illness", "health emergency", "contamination", "stench", "toxic",
     "suffocating", "நோய்", "அசுத்தம்"]),
   ("women_safety",
    ["लड़कियों की सुरक्षा", "महिलाओं की सुरक्षा", "women safety", "girls safety",
     "ladies safety", "பெண்கள் பாதுகாப்பு"]),
   ("night_safety",
    ["रात के समय", "अंधेरा", "स्ट्रीट लाइट", "night time", "street light",
     "lighting", "dark", "இரவு நேரம்", "தெரு விளக்கு"]),
   ("broken_streetlight",
    ["स्ट्रीट लाइट", "street light", "lighting", "light", "lamp post", "तार फूटे",
     "broken light"]),
   ("pothole",
    ["गड्ढे", "सड़क के गड्ढे", "potholes", "road holes", "சாலை குழி"]),
   ("road_damage",
    ["सड़क", "खराब सड़क", "टूटी सड़क", "road damage", "broken road", "damaged road",
     "சாலை உடைவு"]),
   ("water_logging",
    ["पानी भरा", "जल जमाव", "water logging", "flooded road", "standing water"]),
   ("drain_blockage",
    ["नाली बंद", "drain blocked", "drainage problem", "clogged drain"]),
   ("garbage_collection",
    ["कचरा", "गंदगी", "सफाई", "garbage", "waste", "trash", "cleaning", "குப்பை"]),
   ("water_supply",
    ["पानी की आपूर्ति", "water supply", "no water", "पानी नहीं", "தண்ணீர் வராது"]),
   ("power_outage",
    ["बिजली", "electricity", "power cut", "विद्युत", "மின்சாரம்"]),
   ("sanitation",
    ["साफ-सफाई", "sanitation", "hygiene", "cleanliness"]),
   ("air_pollution",
    ["प्रदूषण", "हवा की गुणवत्ता", "air pollution", "smoke", "dust", "காற்று மாசு"]),
   ("noise_pollution",
    ["शोर", "आवाज", "noise", "sound pollution", "loud", "ஒலி மாசு"]),
   ("water_pollution",
    ["पानी का प्रदूषण", "water pollution", "river pollution", "நீர் மாசு"]),
   ("illegal_dumping",
    ["अवैध कचरा", "illegal dumping", "waste dumping", "garbage dumping"])]

/-- `detectIssueCategory`: the category with strictly the most keyword
matches, `'general'` when nothing matches. -/
def detectIssueCategory (text : String) : String :=
  let textLower := strToLower text
  (categoryPatterns.foldl
    (fun (acc : String × ℕ) p =>
      let m := countMatches textLower p.2
      if m > acc.2 then (p.1, m) else acc)
    ("general", 0)).1

/-- The emotions/method selection of `analyzeEmotion`: Tamil prefers the
enhanced keyword path; otherwise the AI path is tried when the token checks
out, degrading to enhanced keywords on failure. -/
def emotionsAndMethod (text language : String) (hfTokenValid : Bool)
    (aiOutcome : Except String (Option Sentiment)) : Emotions × String :=
  if language = "ta" then
    (analyzeWithEnhancedKeywords text language, "enhanced-keywords-tamil")
  else if hfTokenValid then
    match aiOutcome with
    | .ok s => (convertSentimentToEmotions s text, "ai-powered")
    | .error _ => (analyzeWithEnhancedKeywords text language, "enhanced-keywords")
  else
    (analyzeWithEnhancedKeywords text language, "enhanced-keywords")

/-- Result object of `analyzeEmotion` (the error field of the emergency
fallback is omitted; that catch branch is unreachable in the embedding
because every local branch is total). -/
structure EmotionResult where
  success : Bool
  emotionScore : ℚ
  emotions : Emotions
  language : String
  analysisMethod : String
  category : String
  deriving DecidableEq, Repr

/-- The category actually used: JS `if (!category)` — an absent or empty
category triggers auto-detection. -/
def effectiveCategory (text : String) (category : Option String) : String :=
  match category with
  | some c => if c = "" then detectIssueCategory text else c
  | none => detectIssueCategory text

/-- The score post-processing of `analyzeEmotion`: weighted fusion,
category multiplier, then the additive safety-concern boost. -/
def adjustedEmotionScore (emotions : Emotions) (cat text : String) : ℚ :=
  let emotionScore := calculateEmotionScore emotions
  let adjustedScore := applyCategoryAdjustments emotionScore cat
  let safetyBoost := detectSafetyConcerns text
  if safetyBoost > 0 then min (adjustedScore + safetyBoost) 1 else adjustedScore

/-- `analyzeEmotion`.  The Hugging Face call of the AI path is an oracle
parameter `aiOutcome` (`Except.error` when all models failed, `Option
Sentiment` for the extracted sentiment otherwise); `hfTokenValid` models
the `hf_`-prefix-and-length check on the configured token. -/
def analyzeEmotion (text : String) (category : Option String)
    (hfTokenValid : Bool) (aiOutcome : Except String (Option Sentiment)) :
    EmotionResult :=
  let language := detectLanguage text
  let cat := effectiveCategory text category
  let step := emotionsAndMethod text language hfTokenValid aiOutcome
  { success := true
    emotionScore := adjustedEmotionScore step.1 cat text
    emotions := step.1
    language := language
    analysisMethod := step.2
    category := cat }

/-- Response of `POST /api/emotion/analyze`. -/
inductive AnalyzeRouteResponse
  | ok (result : EmotionResult)
  | badRequest (message : String)
  deriving DecidableEq, Repr

/-- The `POST /analyze` handler: empty or whitespace-only text is rejected
with a 400 before the analyzer runs. -/
def analyzeRoute (text : String) (category : Option String)
    (hfTokenValid : Bool) (aiOutcome : Except String (Option Sentiment)) :
    AnalyzeRouteResponse :=
  if text = "" ∨ (strTrim text).length = 0 then
    .badRequest "Text is required for emotion analysis"
  else
    .ok (analyzeEmotion text category hfTokenValid aiOutcome)

/-- Accumulation loops with a non-negative increment never go below their
initial value. -/
theorem addMatches_init_le (textLower : String) (inc : ℚ) (h : 0 ≤ inc) :
    ∀ (ws : List String) (init : ℚ), init ≤ addMatches textLower inc init ws := by
  intro ws
  induction ws with
  | nil => intro init; exact le_refl _
  | cons w ws ih =>
      intro init
      simp only [addMatches, List.foldl_cons] at ih ⊢
      refine le_trans ?_ (ih _)
      split <;> linarith

/-- Same monotonicity for the raw (non-lowercasing) accumulation loops. -/
theorem addMatchesRaw_init_le (textLower : String) (inc : ℚ) (h : 0 ≤ inc) :
    ∀ (ws : List String) (init : ℚ), init ≤ addMatchesRaw textLower inc init ws := by
  intro ws
  induction ws with
  | nil => intro init; exact le_refl _
  | cons w ws ih =>
      intro init
      simp only [addMatchesRaw, List.foldl_cons] at ih ⊢
      refine le_trans ?_ (ih _)
      split <;> linarith

/-- The urgency detector returns a value in `[0, 1]`. -/
theorem detectUrgencyFromText_bounds (text : String) :
    0 ≤ detectUrgencyFromText text ∧ detectUrgencyFromText text ≤ 1 := by
  unfold detectUrgencyFromText
  have h1 := addMatches_init_le (strToLower text) 0.15 (by norm_num) urgencyWords 0
  have h2 := addMatches_init_le (strToLower text) 0.3 (by norm_num)
    criticalHealthPhrases (addMatches (strToLower text) 0.15 0 urgencyWords)
  have h3 := addMatches_init_le (strToLower text) 0.25 (by norm_num)
    safetyPhrases (addMatches (strToLower text) 0.3
      (addMatches (strToLower text) 0.15 0 urgencyWords) criticalHealthPhrases)
  exact ⟨le_min (by linarith) (by norm_num), min_le_right _ _⟩

/-- The safety-concern detector returns a value in `[0, 0.15]`. -/
theorem detectSafetyConcerns_bounds (text : String) :
    0 ≤ detectSafetyConcerns text ∧ detectSafetyConcerns text ≤ 0.15 := by
  unfold detectSafetyConcerns
  have h1 := addMatchesRaw_init_le (strToLower text) 0.08 (by norm_num)
    criticalSafetyPhrases 0
  have h2 := addMatchesRaw_init_le (strToLower text) 0.05 (by norm_num)
    vulnerableGroups (addMatchesRaw (strToLower text) 0.08 0 criticalSafetyPhrases)
  have h3 := addMatchesRaw_init_le (strToLower text) 0.03 (by norm_num)
    timeVulnerability (addMatchesRaw (strToLower text) 0.05
      (addMatchesRaw (strToLower text) 0.08 0 criticalSafetyPhrases) vulnerableGroups)
  exact ⟨le_min (by linarith) (by norm_num), min_le_right _ _⟩

/-- `calculateTextScore` with a non-negative per-match increment returns a
value in `[0, 1]`. -/
theorem calculateTextScore_bounds (text : String) (indicators : List String)
    (baseScore : ℚ) (h : 0 ≤ baseScore) :
    0 ≤ calculateTextScore text indicators baseScore ∧
      calculateTextScore text indicators baseScore ≤ 1 := by
  unfold calculateTextScore
  have h1 := addMatches_init_le (strToLower text) baseScore h indicators 0
  exact ⟨le_min h1 (by norm_num), min_le_right _ _⟩

/-- All four axes lie in `[0, 1]`. -/
def EmotionsBounded (e : Emotions) : Prop :=
  (0 ≤ e.anger ∧ e.anger ≤ 1) ∧ (0 ≤ e.urgency ∧ e.urgency ≤ 1) ∧
  (0 ≤ e.frustration ∧ e.frustration ≤ 1) ∧ (0 ≤ e.concern ∧ e.concern ≤ 1)

/-- Keyword analysis produces bounded axes. -/
theorem analyzeWithKeywords_bounded (text language : String) :
    EmotionsBounded (analyzeWithKeywords text language) := by
  have hb : ∀ ws : List String,
      0 ≤ min (addMatches (strToLower text) 0.25 0 ws) 1 ∧
      min (addMatches (strToLower text) 0.25 0 ws) 1 ≤ 1 := fun ws =>
    ⟨le_min (addMatches_init_le _ _ (by norm_num) ws 0) (by norm_num),
     min_le_right _ _⟩
  unfold analyzeWithKeywords EmotionsBounded
  dsimp only
  split_ifs
  · exact ⟨hb _, ⟨by norm_num, by norm_num⟩, hb _, ⟨by norm_num, by norm_num⟩⟩
  · exact ⟨hb _, hb _, hb _, hb _⟩

/-- Enhanced keyword analysis produces bounded axes. -/
theorem analyzeWithEnhancedKeywords_bounded (text language : String) :
    EmotionsBounded (analyzeWithEnhancedKeywords text language) := by
  obtain ⟨ha, hu, hf, hc⟩ := analyzeWithKeywords_bounded text language
  obtain ⟨hu1, hu2⟩ := detectUrgencyFromText_bounds text
  obtain ⟨hc1, hc2⟩ := calculateTextScore_bounds text concernIndicators 0.3 (by norm_num)
  obtain ⟨hg1, hg2⟩ := calculateTextScore_bounds text angerIndicators 0.4 (by norm_num)
  unfold analyzeWithEnhancedKeywords detectConcernFromText detectAngerFromText
  refine ⟨⟨le_max_of_le_left ha.1, max_le ha.2 hg2⟩,
          ⟨le_max_of_le_left hu.1, max_le hu.2 hu2⟩, hf,
          ⟨le_max_of_le_left hc.1, max_le hc.2 hc2⟩⟩

/-- Sentiment conversion produces bounded axes whenever the API score is in
`[0, 1]`. -/
theorem convertSentimentToEmotions_bounded (sentiment : Option Sentiment)
    (text : String)
    (h : ∀ s, sentiment = some s → 0 ≤ s.score ∧ s.score ≤ 1) :
    EmotionsBounded (convertSentimentToEmotions sentiment text) := by
  obtain ⟨hb1, hb2⟩ := detectUrgencyFromText_bounds text
  rcases sentiment with _ | s
  · unfold convertSentimentToEmotions EmotionsBounded
    dsimp only
    refine ⟨⟨?_, ?_⟩, ⟨?_, ?_⟩, ⟨?_, ?_⟩, ⟨?_, ?_⟩⟩ <;> linarith
  · obtain ⟨hs1, hs2⟩ := h s rfl
    unfold convertSentimentToEmotions EmotionsBounded
    dsimp only
    split_ifs <;>
      refine ⟨⟨?_, ?_⟩, ⟨?_, ?_⟩, ⟨?_, ?_⟩, ⟨?_, ?_⟩⟩ <;>
      first
        | exact le_min (by linarith) (by norm_num)
        | exact min_le_right _ _
        | linarith
        | norm_num

/-- The weighted fusion of bounded axes is in `[0, 1]`. -/
theorem calculateEmotionScore_bounds (e : Emotions) (h : EmotionsBounded e) :
    0 ≤ calculateEmotionScore e ∧ calculateEmotionScore e ≤ 1 := by
  obtain ⟨⟨ha1, ha2⟩, ⟨hu1, hu2⟩, ⟨hf1, hf2⟩, ⟨hc1, hc2⟩⟩ := h
  unfold calculateEmotionScore
  have hbase1 : (0 : ℚ) ≤
      0 + e.anger * 0.3 + e.urgency * 0.4 + e.frustration * 0.1 + e.concern * 0.2 := by
    nlinarith
  have hbase2 :
      0 + e.anger * 0.3 + e.urgency * 0.4 + e.frustration * 0.1 + e.concern * 0.2
        ≤ 1 := by
    nlinarith
  split
  · exact ⟨le_min (by nlinarith) (by norm_num), min_le_right _ _⟩
  · exact ⟨hbase1, hbase2⟩

/-- Every category multiplier is at least 1. -/
theorem categoryMultiplier_ge_one (category : String) :
    1 ≤ categoryMultiplier category := by
  unfold categoryMultiplier
  split <;> norm_num

/-- The category adjustment of a non-negative score is in `[0, 1]`. -/
theorem applyCategoryAdjustments_bounds (score : ℚ) (category : String)
    (h : 0 ≤ score) :
    0 ≤ applyCategoryAdjustments score category ∧
      applyCategoryAdjustments score category ≤ 1 := by
  unfold applyCategoryAdjustments
  have hm := categoryMultiplier_ge_one category
  exact ⟨le_min (mul_nonneg h (by linarith)) (by norm_num), min_le_right _ _⟩

/-- External-contract assumption for the sentiment oracle: a delivered
sentiment score is a confidence in `[0, 1]`. -/
def aiScoreBounded : Except String (Option Sentiment) → Prop
  | .ok (some s) => 0 ≤ s.score ∧ s.score ≤ 1
  | _ => True

/-- The selected emotions are bounded for every analysis path. -/
theorem emotionsAndMethod_bounded (text language : String) (hfTokenValid : Bool)
    (aiOutcome : Except String (Option Sentiment))
    (h : aiScoreBounded aiOutcome) :
    EmotionsBounded (emotionsAndMethod text language hfTokenValid aiOutcome).1 := by
  rcases aiOutcome with e | os
  · unfold emotionsAndMethod
    split_ifs <;> exact analyzeWithEnhancedKeywords_bounded text language
  · unfold emotionsAndMethod
    split_ifs
    · exact analyzeWithEnhancedKeywords_bounded text language
    · refine convertSentimentToEmotions_bounded os text ?_
      intro s' hs'
      subst hs'
      exact h
    · exact analyzeWithEnhancedKeywords_bounded text language

/-- Post-processing a bounded emotion vector yields a score in `[0, 1]`. -/
theorem adjustedEmotionScore_bounds (emotions : Emotions) (cat text : String)
    (h : EmotionsBounded emotions) :
    0 ≤ adjustedEmotionScore emotions cat text ∧
      adjustedEmotionScore emotions cat text ≤ 1 := by
  obtain ⟨hs1, hs2⟩ := calculateEmotionScore_bounds emotions h
  obtain ⟨ha1, ha2⟩ :=
    applyCategoryAdjustments_bounds (calculateEmotionScore emotions) cat hs1
  obtain ⟨hb1, hb2⟩ := detectSafetyConcerns_bounds text
  unfold adjustedEmotionScore
  dsimp only
  split_ifs
  · exact ⟨le_min (by linarith) (by norm_num), min_le_right _ _⟩
  · exact ⟨ha1, ha2⟩

/-- C6 (counterexample): on whitespace-only text the `/analyze` route
rejects the request with a 400 error instead of returning a score-0 result,
and the analyzer itself (keyword path) reports method `enhanced-keywords` —
no code path ever reports a `no-input` method. -/
theorem emotion_no_input_cex :
    analyzeRoute "   " none false (.error "x") =
      .badRequest "Text is required for emotion analysis" ∧
    (analyzeEmotion "   " none false (.error "x")).analysisMethod =
      "enhanced-keywords" ∧
    ("enhanced-keywords" ≠ "no-input") := by
  refine ⟨by decide, by decide, by decide⟩

/-- C6 (amended): for every text input the analyzer's returned emotion
score lies in `[0, 1]` — provided a delivered AI sentiment score is itself
a confidence in `[0, 1]` (external contract) — and empty or whitespace-only
text never reaches the analyzer: the route rejects it with a 400
(`no-input` does not exist as a method). -/
theorem emotion_score_in_unit_interval (text : String) (category : Option String)
    (hfTokenValid : Bool) (aiOutcome : Except String (Option Sentiment))
    (h : aiScoreBounded aiOutcome) :
    (0 ≤ (analyzeEmotion text category hfTokenValid aiOutcome).emotionScore ∧
      (analyzeEmotion text category hfTokenValid aiOutcome).emotionScore ≤ 1) ∧
    (strTrim text = "" →
      analyzeRoute text category hfTokenValid aiOutcome =
        .badRequest "Text is required for emotion analysis") := by
  constructor
  · exact adjustedEmotionScore_bounds _ _ _
      (emotionsAndMethod_bounded text (detectLanguage text) hfTokenValid aiOutcome h)
  · intro ht
    have hcond : text = "" ∨ (strTrim text).length = 0 := Or.inr (by rw [ht]; rfl)
    unfold analyzeRoute
    rw [if_pos hcond]

/-- C6 (witness): the amended theorem applied at whitespace-only input with
a failed AI oracle. -/
theorem emotion_score_in_unit_interval_witness :
    aiScoreBounded (Except.error "x") ∧
    ((0 ≤ (analyzeEmotion "   " none false (.error "x")).emotionScore ∧
      (analyzeEmotion "   " none false (.error "x")).emotionScore ≤ 1) ∧
     (strTrim "   " = "" →
      analyzeRoute "   " none false (.error "x") =
        .badRequest "Text is required for emotion analysis")) :=
  ⟨trivial, emotion_score_in_unit_interval "   " none false (.error "x") trivial⟩

/-- The weighted fusion exactly as the specification words it. -/
def specFusedEmotionScore (e : Emotions) : ℚ :=
  let s := 0.4 * e.urgency + 0.3 * e.anger + 0.2 * e.concern + 0.1 * e.frustration
  if e.concern > 0.3 then min (s * 1.2) 1 else s

/-- C7: for every emotion vector the analyzer's fused score is
`0.4·urgency + 0.3·anger + 0.2·concern + 0.1·frustration`, multiplied by
1.2 and capped at 1 when concern exceeds 0.3 (proved for all rational
axes, in particular for axes in `[0,1]`). -/
theorem emotion_weighted_fusion (e : Emotions) :
    calculateEmotionScore e = specFusedEmotionScore e := by
  unfold calculateEmotionScore specFusedEmotionScore
  dsimp only
  have hbase :
      0 + e.anger * 0.3 + e.urgency * 0.4 + e.frustration * 0.1 + e.concern * 0.2
        = 0.4 * e.urgency + 0.3 * e.anger + 0.2 * e.concern + 0.1 * e.frustration := by
    ring
  rw [hbase]

/-! ## Score clamping before insertion (`filterComplaintDataForInsertion`) -/

/-- JS `parseFloat(x.toFixed(2))` for the non-negative scores that reach
it: round to 2 fractional digits. -/
def roundTo2 (q : ℚ) : ℚ :=
  (round (q * 100) : ℤ) / 100

/-- The per-field body of the `numericFields.forEach` clamp in
`filterComplaintDataForInsertion`: values at least 10 become 9.99, negative
values become 0, anything else is rounded to 2 fractional digits. -/
def clampScoreField (q : ℚ) : ℚ :=
  if q ≥ 10 then 9.99
  else if q < 0 then 0
  else roundTo2 q

/-- The four numeric score fields the clamp is applied to. -/
def numericFields : List String :=
  ["priority_score", "location_sensitivity_score", "emotion_score",
   "ai_confidence_score"]

/-- The numeric score columns of a complaint row, `none` when the field is
absent from (or non-numeric in) the filtered data. -/
structure ScoreFields where
  priority_score : Option ℚ
  location_sensitivity_score : Option ℚ
  emotion_score : Option ℚ
  ai_confidence_score : Option ℚ
  deriving DecidableEq, Repr

/-- `filterComplaintDataForInsertion`, restricted to its numeric-field
clamping action (the column filtering against the introspected schema keeps
or drops fields, it never alters values). -/
def filterComplaintScores (f : ScoreFields) : ScoreFields :=
  { priority_score := f.priority_score.map clampScoreField
    location_sensitivity_score := f.location_sensitivity_score.map clampScoreField
    emotion_score := f.emotion_score.map clampScoreField
    ai_confidence_score := f.ai_confidence_score.map clampScoreField }

/-- The `imageValidation?.confidence ? parseFloat((…).toFixed(2)) : 0.5`
pattern of the submit handler (also used for `modelConfidence`): a missing
or zero (falsy) confidence falls back to the 0.5 default. -/
def confidenceOrDefault (o : Option ℚ) : ℚ :=
  match o with
  | some c => if c = 0 then 0.5 else roundTo2 c
  | none => 0.5

/-- The four score fields exactly as the submit handler builds them before
calling `filterComplaintDataForInsertion`: every numeric value is already
passed through `parseFloat(x.toFixed(2))` (or is the constant 0.5) at the
call site. -/
def submitScoreFields (totalScore locationScore : ℚ)
    (iv : Option ImageValidation) : ScoreFields :=
  { priority_score := some (roundTo2 totalScore)
    location_sensitivity_score := some (roundTo2 locationScore)
    emotion_score := some (confidenceOrDefault (iv.bind (·.confidence)))
    ai_confidence_score := some (confidenceOrDefault (iv.bind (·.modelConfidence))) }

/-- What the storage contract demands of a persisted score: non-negative,
at most 9.99 (in particular strictly below 10), and an exact multiple of
1/100 (at most 2 fractional digits). -/
def scoreFieldOk (v : ℚ) : Prop :=
  0 ≤ v ∧ v ≤ 9.99 ∧ v < 10 ∧ ∃ k : ℤ, v = (k : ℚ) / 100

/-- The clamp is well-behaved on every exact hundredth — and every value
the submit handler feeds it is an exact hundredth. -/
theorem hundredth_clamp_ok (k : ℤ) :
    scoreFieldOk (clampScoreField ((k : ℚ) / 100)) := by
  unfold clampScoreField scoreFieldOk
  split_ifs with h10 hneg
  · exact ⟨by norm_num, by norm_num, by norm_num, 999, by norm_num⟩
  · exact ⟨le_refl 0, by norm_num, by norm_num, 0, by norm_num⟩
  · push_neg at h10 hneg
    have hr : roundTo2 ((k : ℚ) / 100) = (k : ℚ) / 100 := by
      unfold roundTo2
      have hmul : (k : ℚ) / 100 * 100 = (k : ℚ) := by field_simp
      rw [hmul, round_intCast]
    rw [hr]
    have hklt : (k : ℚ) < 1000 := by linarith
    have hkz : k < 1000 := by exact_mod_cast hklt
    have hk999 : (k : ℚ) ≤ 999 := by exact_mod_cast (by omega : k ≤ 999)
    exact ⟨hneg, by linarith, h10, k, rfl⟩

/-- The confidence defaulting also only produces exact hundredths, and the
clamp keeps them in range. -/
theorem confidence_clamp_ok (o : Option ℚ) :
    scoreFieldOk (clampScoreField (confidenceOrDefault o)) := by
  have h05 : (0.5 : ℚ) = ((50 : ℤ) : ℚ) / 100 := by norm_num
  rcases o with _ | c
  · rw [show confidenceOrDefault none = ((50 : ℤ) : ℚ) / 100 from h05]
    exact hundredth_clamp_ok 50
  · unfold confidenceOrDefault
    dsimp only
    split_ifs
    · rw [h05]
      exact hundredth_clamp_ok 50
    · exact hundredth_clamp_ok (round (c * 100))

/-- C8: for every complaint submission — every raw `totalScore`,
`locationScore` and image-validation result — each numeric score field that
`filterComplaintDataForInsertion` passes to the insert is at least 0,
strictly below 10 (at most 9.99), and an exact multiple of 1/100, and any
value that reaches the clamp at 10 or above becomes exactly 9.99.  The
call site pre-rounds every field with `parseFloat(x.toFixed(2))`, so the
clamp only ever sees exact hundredths, for which the
round-after-bounds-check order inside the filter is harmless. -/
theorem submit_scores_clamped (totalScore locationScore : ℚ)
    (iv : Option ImageValidation) :
    (∃ p l e a : ℚ,
      filterComplaintScores (submitScoreFields totalScore locationScore iv) =
        ⟨some p, some l, some e, some a⟩ ∧
      scoreFieldOk p ∧ scoreFieldOk l ∧ scoreFieldOk e ∧ scoreFieldOk a) ∧
    (∀ q : ℚ, 10 ≤ q → clampScoreField q = 9.99) := by
  constructor
  · refine ⟨_, _, _, _, rfl, ?_, ?_, ?_, ?_⟩
    · exact hundredth_clamp_ok (round (totalScore * 100))
    · exact hundredth_clamp_ok (round (locationScore * 100))
    · exact confidence_clamp_ok _
    · exact confidence_clamp_ok _
  · intro q h
    unfold clampScoreField
    rw [if_pos h]

/-- C8 (witness): a raw score of 10.5 reaches the clamp at or above 10 and
is persisted as exactly 9.99. -/
theorem submit_scores_clamped_witness :
    (10 : ℚ) ≤ 10.5 ∧ clampScoreField 10.5 = 9.99 :=
  ⟨by norm_num, (submit_scores_clamped 0 0 none).2 10.5 (by norm_num)⟩

/-! ## Guest pseudo-identifier (`generateGuestUUID`, `routes/guest-votes.js`)

The `md5` digest of the `crypto` module is external; it enters the
embedding as a function `md5hex : String → List Char` producing the
lowercase hex digest (32 characters for real MD5). -/

/-- JS `parseInt(c, 16)` on a single character, with the `NaN` of a
non-hex character coerced to 0 by the subsequent bitwise ops. -/
def hexToNat (c : Char) : ℕ :=
  if '0' ≤ c ∧ c ≤ '9' then c.toNat - 48
  else if 'a' ≤ c ∧ c ≤ 'f' then c.toNat - 87
  else if 'A' ≤ c ∧ c ≤ 'F' then c.toNat - 55
  else 0

/-- JS `(n).toString(16)` for a nibble value. -/
def natToHexChar (n : ℕ) : Char :=
  if n < 10 then Char.ofNat (48 + n) else Char.ofNat (87 + n)

/-- The variant character: `((parseInt(hash.substr(16,1), 16) & 0x3) | 0x8)
.toString(16)` — for a nibble `x`, `(x & 3) | 8 = x % 4 + 8`. -/
def variantChar (h : List Char) : Char :=
  natToHexChar (hexToNat (h.getD 16 '0') % 4 + 8)

/-- The UUID-shaped formatting of the digest: pieces
`[0,8)`, `[8,12)`, `'4' + [13,16)`, `variant + [17,20)`, `[20,32)` joined
with dashes. -/
def formatGuestUUID (h : List Char) : String :=
  ⟨(h.take 8) ++ '-' :: ((h.drop 8).take 4) ++
    '-' :: '4' :: ((h.drop 13).take 3) ++
    '-' :: variantChar h :: ((h.drop 17).take 3) ++
    '-' :: ((h.drop 20).take 12)⟩

/-- `generateGuestUUID`: deterministic UUID derived from the MD5 digest of
`'guest_' + deviceId`. -/
def generateGuestUUID (md5hex : String → List Char) (deviceId : String) : String :=
  formatGuestUUID (md5hex ("guest_" ++ deviceId))

/-- The digest information that survives into the UUID: everything except
the nibble at index 12 and the top two bits of the nibble at index 16. -/
def digestProjection (h : List Char) :
    List Char × List Char × List Char × ℕ × List Char × List Char :=
  (h.take 8, (h.drop 8).take 4, (h.drop 13).take 3,
   hexToNat (h.getD 16 '0') % 4, (h.drop 17).take 3, (h.drop 20).take 12)

/-- Hex rendering is injective on the four variant nibble values. -/
theorem variant_nibble_inj (a b : ℕ) (ha : a < 4) (hb : b < 4)
    (h : natToHexChar (a + 8) = natToHexChar (b + 8)) : a = b := by
  interval_cases a <;> interval_cases b <;> first | rfl | (exfalso; revert h; decide)

/-- For 32-character digests, the UUID formatting is injective up to the
discarded digest information: equal UUIDs force equal digest
projections. -/
theorem formatGuestUUID_inj_projection (h1 h2 : List Char)
    (l1 : h1.length = 32) (l2 : h2.length = 32)
    (he : formatGuestUUID h1 = formatGuestUUID h2) :
    digestProjection h1 = digestProjection h2 := by
  unfold formatGuestUUID at he
  injection he with he
  obtain ⟨hd, hE⟩ := List.append_inj he (by simp [l1, l2])
  obtain ⟨hd, eD⟩ := List.append_inj hd (by simp [l1, l2])
  obtain ⟨hd, eC⟩ := List.append_inj hd (by simp [l1, l2])
  obtain ⟨e1, eB⟩ := List.append_inj hd (by simp [l1, l2])
  rw [List.cons.injEq] at eB eC eD hE
  obtain ⟨-, e2⟩ := eB
  obtain ⟨-, eC⟩ := eC
  rw [List.cons.injEq] at eC
  obtain ⟨-, e3⟩ := eC
  obtain ⟨-, eD⟩ := eD
  rw [List.cons.injEq] at eD
  obtain ⟨hv, e4⟩ := eD
  obtain ⟨-, e5⟩ := hE
  have hx : hexToNat (h1.getD 16 '0') % 4 = hexToNat (h2.getD 16 '0') % 4 :=
    variant_nibble_inj _ _ (Nat.mod_lt _ (by norm_num)) (Nat.mod_lt _ (by norm_num)) hv
  unfold digestProjection
  rw [e1, e2, e3, e4, e5, hx]

/-- C9: the guest pseudo-voter-id is a deterministic pure function of the
device identifier (equal inputs give equal outputs on every call), and two
device identifiers can only map to the same id when the MD5 digests of
their `guest_`-prefixed forms collide on all the digest material that
enters the UUID (30 nibbles plus 2 variant bits) — i.e. distinct devices
get distinct ids except with hash-collision probability. -/
theorem guest_uuid_deterministic (md5hex : String → List Char) (d1 d2 : String)
    (l1 : (md5hex ("guest_" ++ d1)).length = 32)
    (l2 : (md5hex ("guest_" ++ d2)).length = 32) :
    (d1 = d2 → generateGuestUUID md5hex d1 = generateGuestUUID md5hex d2) ∧
    (generateGuestUUID md5hex d1 = generateGuestUUID md5hex d2 →
      digestProjection (md5hex ("guest_" ++ d1)) =
        digestProjection (md5hex ("guest_" ++ d2))) := by
  constructor
  · intro h
    rw [h]
  · intro h
    exact formatGuestUUID_inj_projection _ _ l1 l2 h

/-- C9 (witness): the theorem applied to a fixed 32-hex-character digest
function and equal device ids. -/
theorem guest_uuid_deterministic_witness :
    (((fun _ : String => "00112233445566778899aabbccddeeff".toList)
        ("guest_" ++ "a")).length = 32) ∧
    ((("a" : String) = "a" →
      generateGuestUUID
          (fun _ : String => "00112233445566778899aabbccddeeff".toList) "a" =
        generateGuestUUID
          (fun _ : String => "00112233445566778899aabbccddeeff".toList) "a") ∧
     (generateGuestUUID
          (fun _ : String => "00112233445566778899aabbccddeeff".toList) "a" =
        generateGuestUUID
          (fun _ : String => "00112233445566778899aabbccddeeff".toList) "a" →
      digestProjection
          ((fun _ : String => "00112233445566778899aabbccddeeff".toList)
            ("guest_" ++ "a")) =
        digestProjection
          ((fun _ : String => "00112233445566778899aabbccddeeff".toList)
            ("guest_" ++ "a")))) :=
  ⟨by decide,
   guest_uuid_deterministic (fun _ => "00112233445566778899aabbccddeeff".toList)
     "a" "a" (by decide) (by decide)⟩

/-! ## Guest-vote route (`POST /api/guest-votes/`, `routes/guest-votes.js`)

Two handlers are registered on the same `POST /` route, one after the
other.  Express dispatches a request to the layers in registration order; a
later layer runs only if an earlier one calls `next()`.  Both handlers
always terminate the request with a response, so dispatch is modelled as
running the first handler that produces a response (`none` = `next()`). -/

/-- A row of the `complaints` table (fields used by the route). -/
structure ComplaintRow where
  id : String
  vote_count : ℕ
  deriving DecidableEq, Repr

/-- A row of the `complaint_votes` table. -/
structure GuestVoteRow where
  id : ℕ
  complaint_id : String
  user_id : Option String
  vote_type : VoteType
  deriving DecidableEq, Repr

/-- Database state seen by the guest-vote route. -/
structure GuestDb where
  complaints : List ComplaintRow
  votes : List GuestVoteRow
  nextVoteId : ℕ
  deriving DecidableEq, Repr

/-- `.from('complaints').select(...).eq('id', complaintId).single()`. -/
def findComplaint (db : GuestDb) (cid : String) : Option ComplaintRow :=
  db.complaints.find? (fun c => c.id = cid)

/-- `.from('complaints').update({vote_count}).eq('id', complaintId)`. -/
def setVoteCount (db : GuestDb) (cid : String) (n : ℕ) : GuestDb :=
  { db with
    complaints :=
      db.complaints.map (fun c => if c.id = cid then { c with vote_count := n } else c) }

/-- Request body of `POST /api/guest-votes/`. -/
structure GuestVoteRequest where
  complaintId : Option String
  deviceId : Option String
  deriving DecidableEq, Repr

/-- Response of the guest-vote handlers (`voteCount` is an integer because
the second handler can report `vote_count - 1`). -/
inductive GuestVoteResponse
  | badRequest (message : String)
  | notFound (message : String)
  | ok (complaint_id : String) (vote_type : VoteType) (voteCount : ℤ)
      (isGuestVote : Bool)
  deriving DecidableEq, Repr

/-- The first `POST /` handler: inserts a vote row with `user_id: null` and
`vote_type: 'upvote'` — no device check of any kind — then writes
`vote_count := complaint.vote_count + 1` and re-reads the count for the
response. -/
def guestVoteInsertHandler (req : GuestVoteRequest) (db : GuestDb) :
    GuestVoteResponse × GuestDb :=
  match req.complaintId with
  | none => (.badRequest "Missing required parameter: complaintId", db)
  | some cid =>
      match findComplaint db cid with
      | none => (.notFound "Complaint not found", db)
      | some complaint =>
          let db1 : GuestDb :=
            { db with
              votes := db.votes ++
                [{ id := db.nextVoteId, complaint_id := cid, user_id := none,
                   vote_type := .upvote }]
              nextVoteId := db.nextVoteId + 1 }
          let db2 := setVoteCount db1 cid (complaint.vote_count + 1)
          let finalVoteCount : ℕ :=
            match findComplaint db2 cid with
            | some c => c.vote_count
            | none => complaint.vote_count + 1
          (.ok cid .upvote finalVoteCount true, db2)

/-- The second (shadowed) `POST /` handler: deterministic device-UUID
lookup and upvote/downvote toggle.  `tempSuffix` is the
`temp_${Date.now()}_${random}` oracle used when no device id is
supplied. -/
def guestVoteToggleHandler (md5hex : String → List Char) (tempSuffix : String)
    (req : GuestVoteRequest) (db : GuestDb) : GuestVoteResponse × GuestDb :=
  match req.complaintId with
  | none => (.badRequest "Missing required parameter: complaintId", db)
  | some cid =>
      match findComplaint db cid with
      | none => (.notFound "Complaint not found", db)
      | some complaint =>
          let existingVote : Option GuestVoteRow :=
            match req.deviceId with
            | some dev =>
                db.votes.find? (fun v =>
                  v.complaint_id = cid ∧
                  v.user_id = some (generateGuestUUID md5hex dev))
            | none => none
          match existingVote with
          | none =>
              let guestUserId :=
                match req.deviceId with
                | some dev => generateGuestUUID md5hex dev
                | none => generateGuestUUID md5hex tempSuffix
              let db1 : GuestDb :=
                { db with
                  votes := db.votes ++
                    [{ id := db.nextVoteId, complaint_id := cid,
                       user_id := some guestUserId, vote_type := .upvote }]
                  nextVoteId := db.nextVoteId + 1 }
              let db2 := setVoteCount db1 cid (complaint.vote_count + 1)
              ((.ok cid .upvote (complaint.vote_count + 1) true), db2)
          | some v =>
              let newVoteType :=
                match v.vote_type with
                | .upvote => VoteType.downvote
                | .downvote => VoteType.upvote
              let voteCountChange : ℤ :=
                if newVoteType = VoteType.upvote then 1 else -1
              let db1 : GuestDb :=
                { db with
                  votes := db.votes.map (fun w =>
                    if w.id = v.id then { w with vote_type := newVoteType } else w) }
              let db2 :=
                setVoteCount db1 cid
                  (max 0 ((complaint.vote_count : ℤ) + voteCountChange)).toNat
              ((.ok cid newVoteType
                  ((complaint.vote_count : ℤ) + voteCountChange) true), db2)

/-- An Express route layer: `none` models a handler that calls `next()`. -/
def GuestRouteLayer : Type :=
  GuestVoteRequest → GuestDb → Option (GuestVoteResponse × GuestDb)

/-- First-match dispatch over the registered layers. -/
def runRoute (layers : List GuestRouteLayer) (req : GuestVoteRequest)
    (db : GuestDb) : Option (GuestVoteResponse × GuestDb) :=
  match layers with
  | [] => none
  | h :: rest =>
      match h req db with
      | some r => some r
      | none => runRoute rest req db

/-- The two `router.post('/', ...)` registrations of `guest-votes.js`, in
source order.  Neither handler ever calls `next()`: every code path sends a
response. -/
def guestVotesPostLayers (md5hex : String → List Char) (tempSuffix : String) :
    List GuestRouteLayer :=
  [fun req db => some (guestVoteInsertHandler req db),
   fun req db => some (guestVoteToggleHandler md5hex tempSuffix req db)]

/-- What actually serves `POST /api/guest-votes/`. -/
def serveGuestVote (md5hex : String → List Char) (tempSuffix : String)
    (req : GuestVoteRequest) (db : GuestDb) :
    Option (GuestVoteResponse × GuestDb) :=
  runRoute (guestVotesPostLayers md5hex tempSuffix) req db

/-- Updating the count of complaint `cid` is visible to a subsequent
single-row read of `cid`. -/
theorem findComplaint_setVoteCount (db : GuestDb) (cid : String) (n : ℕ) :
    findComplaint (setVoteCount db cid n) cid =
      (findComplaint db cid).map (fun c => { c with vote_count := n }) := by
  unfold findComplaint setVoteCount
  dsimp only
  induction db.complaints with
  | nil => rfl
  | cons c cs ih =>
      by_cases h : c.id = cid <;> simp [List.find?_cons, h, ih]

/-- A complaint read does not depend on the vote rows or the id counter. -/
theorem findComplaint_set_votes (db : GuestDb) (v : List GuestVoteRow) (n : ℕ)
    (cid : String) :
    findComplaint { db with votes := v, nextVoteId := n } cid =
      findComplaint db cid :=
  rfl

/-- C10: for every request naming an existing complaint, `POST
/api/guest-votes/` is served by the first registered handler: it appends a
fresh vote row with `user_id = null` and `vote_type = upvote` and sets the
complaint's `vote_count` to one more than before — with the same outcome
whatever `deviceId` says and whatever vote rows (from this or any device)
already exist — while the second registered handler, the device-UUID
toggle, never runs, so repeated guest votes are never deduplicated or
toggled. -/
theorem guest_vote_shadowed_toggle (md5hex : String → List Char)
    (tempSuffix : String) (req : GuestVoteRequest) (db : GuestDb)
    (cid : String) (c : ComplaintRow)
    (hreq : req.complaintId = some cid)
    (hfind : findComplaint db cid = some c) :
    serveGuestVote md5hex tempSuffix req db =
      some (guestVoteInsertHandler req db) ∧
    (guestVoteInsertHandler req db).2.votes =
      db.votes ++ [⟨db.nextVoteId, cid, none, .upvote⟩] ∧
    findComplaint (guestVoteInsertHandler req db).2 cid =
      some { c with vote_count := c.vote_count + 1 } ∧
    (guestVoteInsertHandler req db).1 =
      .ok cid .upvote ((c.vote_count : ℤ) + 1) true ∧
    (∀ dev1 dev2 : Option String,
      guestVoteInsertHandler ⟨some cid, dev1⟩ db =
        guestVoteInsertHandler ⟨some cid, dev2⟩ db) := by
  refine ⟨rfl, ?_, ?_, ?_, fun dev1 dev2 => rfl⟩
  · simp only [guestVoteInsertHandler, hreq, hfind]
    rfl
  · simp only [guestVoteInsertHandler, hreq, hfind]
    rw [findComplaint_setVoteCount, findComplaint_set_votes, hfind]
    rfl
  · simp only [guestVoteInsertHandler, hreq, hfind,
      findComplaint_setVoteCount, findComplaint_set_votes, Option.map_some']
    push_cast
    rfl

/-- C10 (witness): a concrete database with one complaint and a request
carrying a device id. -/
theorem guest_vote_shadowed_toggle_witness :
    (⟨some "c1", some "device"⟩ : GuestVoteRequest).complaintId = some "c1" ∧
    findComplaint ⟨[⟨"c1", 5⟩], [], 0⟩ "c1" = some ⟨"c1", 5⟩ ∧
    serveGuestVote (fun _ => []) "t" ⟨some "c1", some "device"⟩
        ⟨[⟨"c1", 5⟩], [], 0⟩ =
      some (guestVoteInsertHandler ⟨some "c1", some "device"⟩
        ⟨[⟨"c1", 5⟩], [], 0⟩) ∧
    (guestVoteInsertHandler ⟨some "c1", some "device"⟩
        ⟨[⟨"c1", 5⟩], [], 0⟩).2.votes =
      [] ++ [⟨0, "c1", none, .upvote⟩] :=
  let db : GuestDb := ⟨[⟨"c1", 5⟩], [], 0⟩
  let thm := guest_vote_shadowed_toggle (fun _ => []) "t"
    ⟨some "c1", some "device"⟩ db "c1" ⟨"c1", 5⟩ rfl rfl
  ⟨rfl, rfl, thm.1, thm.2.1⟩

end CivicRezo
